import Mathlib

/-!
Verification of the subscription/broadcast core of the crypto-tracker API.

The development shallowly embeds the TypeScript sources:
  - src/websocket/handlers/priceHandler.ts  (subscription registry, broadcast)
  - src/services/alertService.ts            (alert creation and evaluation)
  - src/api/routes/alerts.ts                (alert creation schema)
  - src/api/middleware/rateLimit.ts         (sliding-window rate limiter)

Modelling conventions:
  - JS Map/Set state becomes a structure of Finsets and total functions
    (an absent map key is indistinguishable from a key mapped to the empty
    set, which matches how the code only ever reads these maps).
  - JS numbers and Postgres decimal columns are modelled as exact rationals.
  - Nullable decimal columns (strings in the driver) are Option values; a
    stored string is produced by Number.toString and is never empty, so JS
    truthiness of the column is exactly Option.isSome, including the
    string "0", which is truthy.
  - Async database effects become explicit parameters: the success of the
    batch update is a Bool, the fetched current price an Option.
-/

namespace CryptoTracker

/-! ## Subscription registry (priceHandler.ts)

Sockets are identified by naturals, symbols by strings.  Subscribe payload
symbols are modelled post-validation, i.e. already uppercased by the zod
schema transform. -/

abbrev Socket := Nat

abbrev Symbol := String

/-- State of the two module-level maps in priceHandler.ts: the
connection map (each connection holding its subscribedSymbols set)
and the reverse index symbolSubscribers. -/
structure RegistryState where
  conns : Finset Socket
  subscribedSymbols : Socket → Finset Symbol
  symbolSubscribers : Symbol → Finset Socket

/-- The registry before any connection arrives. -/
def RegistryState.empty : RegistryState where
  conns := ∅
  subscribedSymbols := fun _ => ∅
  symbolSubscribers := fun _ => ∅

/-- handleConnection: store a fresh connection record with an empty
subscribedSymbols set.  There is no capacity check in the source. -/
def handleConnection (st : RegistryState) (sock : Socket) : RegistryState where
  conns := insert sock st.conns
  subscribedSymbols := fun t => if t = sock then ∅ else st.subscribedSymbols t
  symbolSubscribers := st.symbolSubscribers

/-- One iteration of the subscribe loop: add the symbol to the connection
interest set and add the socket to the reverse index entry. -/
def subscribeOne (st : RegistryState) (sock : Socket) (sym : Symbol) : RegistryState where
  conns := st.conns
  subscribedSymbols := fun t =>
    if t = sock then insert sym (st.subscribedSymbols sock) else st.subscribedSymbols t
  symbolSubscribers := fun s =>
    if s = sym then insert sock (st.symbolSubscribers sym) else st.symbolSubscribers s

/-- handleSubscribe: reached through handleMessage, which drops the message
when the socket has no connection record; valid symbols are the ones in the
supported set, and only those are applied. -/
def handleSubscribe (supported : List Symbol) (st : RegistryState) (sock : Socket)
    (symbols : List Symbol) : RegistryState :=
  if sock ∈ st.conns then
    (symbols.filter (fun sym => sym ∈ supported)).foldl
      (fun acc sym => subscribeOne acc sock sym) st
  else st

/-- One iteration of the unsubscribe loop: delete the symbol from the
connection interest set and the socket from the reverse index entry. -/
def unsubscribeOne (st : RegistryState) (sock : Socket) (sym : Symbol) : RegistryState where
  conns := st.conns
  subscribedSymbols := fun t =>
    if t = sock then (st.subscribedSymbols sock).erase sym else st.subscribedSymbols t
  symbolSubscribers := fun s =>
    if s = sym then (st.symbolSubscribers sym).erase sock else st.symbolSubscribers s

/-- handleUnsubscribe: reached through handleMessage, which drops the
message when the socket has no connection record; removes entries
unconditionally for each listed symbol. -/
def handleUnsubscribe (st : RegistryState) (sock : Socket) (symbols : List Symbol) :
    RegistryState :=
  if sock ∈ st.conns then
    symbols.foldl (fun acc sym => unsubscribeOne acc sock sym) st
  else st

/-- handleDisconnection: when a record exists, remove the socket from the
reverse index entry of every symbol it subscribed to, then drop the record. -/
def handleDisconnection (st : RegistryState) (sock : Socket) : RegistryState :=
  if sock ∈ st.conns then
    { conns := st.conns.erase sock
      subscribedSymbols := fun t => if t = sock then ∅ else st.subscribedSymbols t
      symbolSubscribers := fun s =>
        if s ∈ st.subscribedSymbols sock then (st.symbolSubscribers s).erase sock
        else st.symbolSubscribers s }
  else st

/-- Client-visible registry operations. -/
inductive RegOp where
  | connect (sock : Socket)
  | subscribe (sock : Socket) (symbols : List Symbol)
  | unsubscribe (sock : Socket) (symbols : List Symbol)
  | disconnect (sock : Socket)

/-- Dispatch one operation to its handler. -/
def applyOp (supported : List Symbol) (st : RegistryState) : RegOp → RegistryState
  | .connect sock => handleConnection st sock
  | .subscribe sock symbols => handleSubscribe supported st sock symbols
  | .unsubscribe sock symbols => handleUnsubscribe st sock symbols
  | .disconnect sock => handleDisconnection st sock

/-- Run a sequence of operations. -/
def runOps (supported : List Symbol) (st : RegistryState) : List RegOp → RegistryState
  | [] => st
  | op :: rest => runOps supported (applyOp supported st op) rest

/-- The transport hands each physical connection a fresh socket object, so
handleConnection is only ever invoked on a socket that is not currently
registered.  This predicate checks that along a run. -/
def freshConnects (supported : List Symbol) (st : RegistryState) : List RegOp → Bool
  | [] => true
  | op :: rest =>
      (match op with
        | .connect sock => decide (sock ∉ st.conns)
        | _ => true)
      && freshConnects supported (applyOp supported st op) rest

/-- The cross-structure consistency property of the claim: the reverse
index and the per-connection interest sets agree. -/
def RegistryConsistent (st : RegistryState) : Prop :=
  ∀ sock sym, sock ∈ st.symbolSubscribers sym ↔ sym ∈ st.subscribedSymbols sock

/-- Auxiliary strengthening: unregistered sockets hold no interest set. -/
def RegistryClosed (st : RegistryState) : Prop :=
  ∀ sock, sock ∉ st.conns → st.subscribedSymbols sock = ∅

/-- Inductive invariant for the registry. -/
def RegistryInv (st : RegistryState) : Prop :=
  RegistryConsistent st ∧ RegistryClosed st

theorem registryInv_empty : RegistryInv RegistryState.empty := by
  constructor
  · intro sock sym
    simp [RegistryState.empty]
  · intro sock _
    rfl

theorem handleConnection_inv {st : RegistryState} {sock : Socket}
    (h : RegistryInv st) (hfresh : sock ∉ st.conns) :
    RegistryInv (handleConnection st sock) := by
  obtain ⟨h1, h2⟩ := h
  constructor
  · intro t s
    simp only [handleConnection]
    by_cases ht : t = sock
    · rw [if_pos ht, ht, h1 sock s, h2 sock hfresh]
    · rw [if_neg ht]
      exact h1 t s
  · intro t htc
    simp only [handleConnection, Finset.mem_insert, not_or] at htc
    simp only [handleConnection, if_neg htc.1]
    exact h2 t htc.2

theorem subscribeOne_inv {st : RegistryState} {sock : Socket} {sym : Symbol}
    (h : RegistryInv st) (hc : sock ∈ st.conns) :
    RegistryInv (subscribeOne st sock sym) := by
  obtain ⟨h1, h2⟩ := h
  constructor
  · intro t s
    simp only [subscribeOne]
    by_cases ht : t = sock <;> by_cases hs : s = sym
    · rw [if_pos ht, if_pos hs, ht, hs]
      simp [Finset.mem_insert]
    · rw [if_pos ht, if_neg hs, ht]
      simp only [Finset.mem_insert, hs, false_or]
      exact h1 sock s
    · rw [if_neg ht, if_pos hs, hs]
      simp only [Finset.mem_insert, ht, false_or]
      exact h1 t sym
    · rw [if_neg ht, if_neg hs]
      exact h1 t s
  · intro t htc
    simp only [subscribeOne] at htc ⊢
    have ht : t ≠ sock := by
      intro he; exact htc (he ▸ hc)
    simp only [if_neg ht]
    exact h2 t htc

theorem unsubscribeOne_inv {st : RegistryState} {sock : Socket} {sym : Symbol}
    (h : RegistryInv st) : RegistryInv (unsubscribeOne st sock sym) := by
  obtain ⟨h1, h2⟩ := h
  constructor
  · intro t s
    simp only [unsubscribeOne]
    by_cases ht : t = sock <;> by_cases hs : s = sym
    · rw [if_pos ht, if_pos hs, ht, hs]
      simp [Finset.mem_erase]
    · rw [if_pos ht, if_neg hs, ht]
      simp only [Finset.mem_erase, ne_eq, hs, not_false_eq_true, true_and]
      exact h1 sock s
    · rw [if_neg ht, if_pos hs, hs]
      simp only [Finset.mem_erase, ne_eq, ht, not_false_eq_true, true_and]
      exact h1 t sym
    · rw [if_neg ht, if_neg hs]
      exact h1 t s
  · intro t htc
    simp only [unsubscribeOne] at htc ⊢
    by_cases ht : t = sock
    · have he : st.subscribedSymbols sock = ∅ := by
        rw [← ht]
        exact h2 t htc
      rw [if_pos ht, he, Finset.erase_empty]
    · rw [if_neg ht]
      exact h2 t htc

theorem handleDisconnection_inv {st : RegistryState} {sock : Socket}
    (h : RegistryInv st) : RegistryInv (handleDisconnection st sock) := by
  obtain ⟨h1, h2⟩ := h
  by_cases hc : sock ∈ st.conns
  · constructor
    · intro t s
      simp only [handleDisconnection, if_pos hc]
      by_cases ht : t = sock
      · rw [if_pos ht, ht]
        by_cases hmem : s ∈ st.subscribedSymbols sock
        · simp [if_pos hmem, Finset.mem_erase]
        · rw [if_neg hmem]
          simp only [Finset.not_mem_empty, iff_false]
          intro habs
          exact hmem ((h1 sock s).mp habs)
      · rw [if_neg ht]
        by_cases hmem : s ∈ st.subscribedSymbols sock
        · rw [if_pos hmem]
          simp only [Finset.mem_erase, ne_eq, ht, not_false_eq_true, true_and]
          exact h1 t s
        · rw [if_neg hmem]
          exact h1 t s
    · intro t htc
      simp only [handleDisconnection, if_pos hc] at htc ⊢
      by_cases ht : t = sock
      · rw [if_pos ht]
      · rw [if_neg ht]
        refine h2 t (fun habs => htc ?_)
        exact Finset.mem_erase.mpr ⟨ht, habs⟩
  · simpa [handleDisconnection, if_neg hc] using And.intro h1 h2

theorem handleSubscribe_inv {supported : List Symbol} {st : RegistryState} {sock : Socket}
    {symbols : List Symbol} (h : RegistryInv st) :
    RegistryInv (handleSubscribe supported st sock symbols) := by
  rw [handleSubscribe]
  by_cases hc : sock ∈ st.conns
  · rw [if_pos hc]
    generalize symbols.filter (fun sym => decide (sym ∈ supported)) = valid
    induction valid generalizing st with
    | nil => exact h
    | cons sym rest ih =>
        exact ih (subscribeOne_inv h hc) hc
  · rwa [if_neg hc]

theorem handleUnsubscribe_inv {st : RegistryState} {sock : Socket}
    {symbols : List Symbol} (h : RegistryInv st) :
    RegistryInv (handleUnsubscribe st sock symbols) := by
  rw [handleUnsubscribe]
  by_cases hc : sock ∈ st.conns
  · rw [if_pos hc]
    induction symbols generalizing st with
    | nil => exact h
    | cons sym rest ih =>
        exact ih (unsubscribeOne_inv h) hc
  · rwa [if_neg hc]

theorem runOps_inv {supported : List Symbol} (ops : List RegOp) (st : RegistryState)
    (h : RegistryInv st) (hfresh : freshConnects supported st ops = true) :
    RegistryInv (runOps supported st ops) := by
  induction ops generalizing st with
  | nil => exact h
  | cons op rest ih =>
      cases op with
      | connect sock =>
          simp only [freshConnects, Bool.and_eq_true, decide_eq_true_eq] at hfresh
          exact ih _ (handleConnection_inv h hfresh.1) hfresh.2
      | subscribe sock symbols =>
          simp only [freshConnects, Bool.true_and] at hfresh
          exact ih _ (handleSubscribe_inv h) hfresh
      | unsubscribe sock symbols =>
          simp only [freshConnects, Bool.true_and] at hfresh
          exact ih _ (handleUnsubscribe_inv h) hfresh
      | disconnect sock =>
          simp only [freshConnects, Bool.true_and] at hfresh
          exact ih _ (handleDisconnection_inv h) hfresh

/-- C1: for every sequence of connect, subscribe, unsubscribe and disconnect
operations starting from the empty registry (each physical connection getting
a fresh socket, as the transport guarantees), the reverse index and the
per-connection interest sets stay mutually consistent: a socket is a member
of symbolSubscribers applied to s if and only if s is a member of the
subscribedSymbols set of that socket. -/
theorem C1_registry_consistent (supported : List Symbol) (ops : List RegOp)
    (hfresh : freshConnects supported RegistryState.empty ops = true) :
    ∀ sock sym,
      sock ∈ (runOps supported RegistryState.empty ops).symbolSubscribers sym ↔
        sym ∈ (runOps supported RegistryState.empty ops).subscribedSymbols sock :=
  (runOps_inv ops RegistryState.empty registryInv_empty hfresh).1

/-- Concrete operation sequence used to witness C1. -/
def c1ops : List RegOp :=
  [RegOp.connect 0, RegOp.subscribe 0 ["BTC", "XYZ"], RegOp.connect 1,
   RegOp.subscribe 1 ["BTC", "ETH"], RegOp.unsubscribe 0 ["BTC"], RegOp.disconnect 1]

/-- Supported symbol list used to witness C1. -/
def c1supported : List Symbol := ["BTC", "ETH", "SOL"]

theorem C1_registry_consistent_witness :
    freshConnects c1supported RegistryState.empty c1ops = true ∧
      (0 ∈ (runOps c1supported RegistryState.empty c1ops).symbolSubscribers "ETH" ↔
        "ETH" ∈ (runOps c1supported RegistryState.empty c1ops).subscribedSymbols 0) :=
  ⟨by decide, C1_registry_consistent c1supported c1ops (by decide) 0 "ETH"⟩

/-! ## C6: connection capacity

env.ts declares WS_MAX_CONNECTIONS (default 1000), but neither
registerWebSocket nor handleConnection ever reads it: a new connection is
admitted unconditionally. -/

/-- Default value of WS_MAX_CONNECTIONS in src/config/env.ts. -/
def wsMaxConnectionsDefault : Nat := 1000

/-- A registry already holding wsMaxConnectionsDefault connections, none
subscribed to anything. -/
def fullRegistry : RegistryState where
  conns := Finset.range wsMaxConnectionsDefault
  subscribedSymbols := fun _ => ∅
  symbolSubscribers := fun _ => ∅

/-- C6: handleConnection performs no capacity check. At a registry already
holding WS_MAX_CONNECTIONS connections, a new registration is still
admitted and the connection map grows, contradicting the claim that a
registration at or above the cap is rejected with CAPACITY_EXCEEDED and
leaves the connection map unchanged. -/
theorem C6_cap_not_enforced :
    wsMaxConnectionsDefault ≤ fullRegistry.conns.card ∧
      wsMaxConnectionsDefault ∈ (handleConnection fullRegistry wsMaxConnectionsDefault).conns ∧
      (handleConnection fullRegistry wsMaxConnectionsDefault).conns.card =
        wsMaxConnectionsDefault + 1 := by
  have hnot : wsMaxConnectionsDefault ∉ Finset.range wsMaxConnectionsDefault := by
    simp
  refine ⟨?_, ?_, ?_⟩
  · simp [fullRegistry]
  · simp [fullRegistry, handleConnection]
  · simp only [fullRegistry, handleConnection]
    rw [Finset.card_insert_of_not_mem hnot, Finset.card_range]

/-! ## Broadcast (priceHandler.ts)

broadcastPriceUpdate looks up the reverse index entry and calls
sendToClient on each subscriber; sendToClient sends only when the socket
readyState is OPEN and otherwise silently does nothing.  Neither function
touches the connection map or the reverse index. -/

/-- broadcastPriceUpdate: returns the (unchanged) registry together with
the set of sockets the message was actually written to. -/
def broadcastPriceUpdate (st : RegistryState) (isOpen : Socket → Bool) (sym : Symbol) :
    RegistryState × Finset Socket :=
  (st, (st.symbolSubscribers sym).filter (fun sock => isOpen sock = true))

/-- A registry with a single connection (socket 0) subscribed to BTC. -/
def oneSubscriberRegistry : RegistryState where
  conns := {0}
  subscribedSymbols := fun t => if t = 0 then {"BTC"} else ∅
  symbolSubscribers := fun s => if s = "BTC" then {0} else ∅

/-- C7 counterexample: socket 0 is subscribed to BTC and its transport is
closed, yet after a BTC broadcast it is still in the connection map and
still in the BTC interest set — the code never deregisters a connection
from the broadcast path. -/
theorem C7_closed_connection_not_deregistered :
    ((fun _ => false : Socket → Bool) 0 = false) ∧
      0 ∈ oneSubscriberRegistry.symbolSubscribers "BTC" ∧
      0 ∈ (broadcastPriceUpdate oneSubscriberRegistry (fun _ => false) "BTC").1.conns ∧
      0 ∈ (broadcastPriceUpdate oneSubscriberRegistry (fun _ => false) "BTC").1.symbolSubscribers
        "BTC" := by
  refine ⟨rfl, ?_, ?_, ?_⟩ <;> decide

/-- C7 amended: price broadcasts are best-effort and leave the registry
untouched.  The message is written exactly to the interested connections
whose transport is open; a closed connection is silently skipped — no
retry, no redelivery, and no deregistration from the broadcast path
(deregistration happens separately, through the transport close event or
the stale-connection sweep). -/
theorem C7_broadcast_best_effort (st : RegistryState) (isOpen : Socket → Bool) (sym : Symbol) :
    (broadcastPriceUpdate st isOpen sym).1 = st ∧
      ∀ sock, sock ∈ (broadcastPriceUpdate st isOpen sym).2 ↔
        sock ∈ st.symbolSubscribers sym ∧ isOpen sock = true := by
  refine ⟨rfl, fun sock => ?_⟩
  simp [broadcastPriceUpdate, Finset.mem_filter]

/-! ## Alert service (alertService.ts, db/schema.ts)

A price_alerts row.  Decimal columns are nullable strings in the driver;
they are modelled as Option rationals, and the JS truthiness tests on them
in checkAlertsForPrice are Option.isSome (see the header comment). -/

/-- The condition column of a price alert. -/
inductive AlertCondition where
  | above
  | below
  | percentChange
deriving DecidableEq, Repr

/-- A row of the price_alerts table (fields the evaluator reads). -/
structure AlertRow where
  id : Nat
  userId : Nat
  symbol : String
  condition : AlertCondition
  targetPrice : Option ℚ
  percentChange : Option ℚ
  basePrice : Option ℚ
  isTriggered : Bool
  isActive : Bool
  triggeredAt : Option Nat
deriving DecidableEq, Repr

/-- A price snapshot (the fields the evaluator reads). -/
structure PriceSnapshot where
  symbol : String
  price : ℚ
deriving DecidableEq, Repr

/-- The switch on alert.condition in checkAlertsForPrice that computes
shouldTrigger for one alert against one price. -/
def shouldTrigger (alert : AlertRow) (price : ℚ) : Bool :=
  match alert.condition with
  | .above =>
      match alert.targetPrice with
      | some t => decide (t ≤ price)
      | none => false
  | .below =>
      match alert.targetPrice with
      | some t => decide (price ≤ t)
      | none => false
  | .percentChange =>
      match alert.basePrice, alert.percentChange with
      | some basePrice, some targetPercent =>
          let actualPercent := (price - basePrice) / basePrice * 100
          (decide (0 < targetPercent) && decide (targetPercent ≤ actualPercent))
            || (decide (targetPercent < 0) && decide (actualPercent ≤ targetPercent))
      | _, _ => false

/-- The select at the top of checkAlertsForPrice: active, non-triggered
alerts for the snapshot symbol. -/
def matchingAlerts (dbase : List AlertRow) (sym : String) : List AlertRow :=
  dbase.filter (fun a => a.symbol == sym && a.isActive && !a.isTriggered)

/-- The alerts the evaluation loop decides to trigger. -/
def triggeredOf (dbase : List AlertRow) (snap : PriceSnapshot) : List AlertRow :=
  (matchingAlerts dbase snap.symbol).filter (fun a => shouldTrigger a snap.price)

/-- The batch update: set isTriggered and triggeredAt on every row whose id
is in the batch (SQL update with inArray on ids). -/
def markTriggered (dbase : List AlertRow) (ids : List Nat) (now : Nat) : List AlertRow :=
  dbase.map (fun a =>
    if a.id ∈ ids then { a with isTriggered := true, triggeredAt := some now } else a)

/-- Observable persistence and notification events of an evaluation, in
program order. -/
inductive EvalEvent where
  | persist (ids : List Nat)
  | announce (id : Nat)
deriving DecidableEq, Repr

/-- True exactly on announce events. -/
def EvalEvent.isAnnounce : EvalEvent → Bool
  | .persist _ => false
  | .announce _ => true

/-- Result of an evaluation: the table afterwards, the alerts handed to
notifyAlertTriggered (also the return value), the event trace, and whether
the db.update rejection propagated out of the function. -/
structure EvalResult where
  dbase : List AlertRow
  announced : List AlertRow
  trace : List EvalEvent
  failed : Bool
deriving DecidableEq, Repr

/-- checkAlertsForPrice: select matching alerts, decide triggers, then — if
any — run one batch update and only afterwards notify listeners.  A
rejected update (persistOk = false) propagates before any notification, and
an SQL update is atomic, so the table is unchanged in that case. -/
def checkAlertsForPrice (dbase : List AlertRow) (snap : PriceSnapshot) (persistOk : Bool)
    (now : Nat) : EvalResult :=
  let triggered := triggeredOf dbase snap
  let ids := triggered.map AlertRow.id
  if triggered.isEmpty then
    { dbase := dbase, announced := [], trace := [], failed := false }
  else if persistOk then
    { dbase := markTriggered dbase ids now
      announced := triggered
      trace := EvalEvent.persist ids :: triggered.map (fun a => EvalEvent.announce a.id)
      failed := false }
  else
    { dbase := dbase, announced := [], trace := [], failed := true }

/-- checkAllAlerts: evaluate each snapshot in order; a failure inside one
evaluation propagates and stops the loop. -/
def checkAllAlerts (dbase : List AlertRow) (prices : List PriceSnapshot) (persistOk : Bool)
    (now : Nat) : EvalResult :=
  match prices with
  | [] => { dbase := dbase, announced := [], trace := [], failed := false }
  | p :: rest =>
      let r := checkAlertsForPrice dbase p persistOk now
      if r.failed then r
      else
        let r2 := checkAllAlerts r.dbase rest persistOk now
        { dbase := r2.dbase
          announced := r.announced ++ r2.announced
          trace := r.trace ++ r2.trace
          failed := r2.failed }

/-! ## Alert creation (alerts.ts CreateAlertSchema, alertService.ts createAlert) -/

/-- Body of POST /alerts after JSON parsing (symbol already uppercased by
the zod transform). -/
structure CreateAlertRequest where
  symbol : String
  condition : AlertCondition
  targetPrice : Option ℚ
  percentChange : Option ℚ
deriving DecidableEq, Repr

/-- CreateAlertSchema: symbol length 1..10, targetPrice positive when
present, and the refinement — percent_change requires percentChange
present, above and below require targetPrice present. -/
def createAlertSchemaAccepts (r : CreateAlertRequest) : Bool :=
  decide (1 ≤ r.symbol.length) && decide (r.symbol.length ≤ 10)
    && (match r.targetPrice with
        | some t => decide (0 < t)
        | none => true)
    && (match r.condition with
        | .percentChange => r.percentChange.isSome
        | _ => r.targetPrice.isSome)

/-- createAlert: the row handed to db.insert.  The current price fetched
from the price source becomes basePrice (null when the source has no price
for the symbol); both targetPrice and percentChange are passed straight
through; isTriggered false, isActive true. -/
def createAlert (nextId userId : Nat) (r : CreateAlertRequest) (currentPrice : Option ℚ) :
    AlertRow where
  id := nextId
  userId := userId
  symbol := r.symbol
  condition := r.condition
  targetPrice := r.targetPrice
  percentChange := r.percentChange
  basePrice := currentPrice
  isTriggered := false
  isActive := true
  triggeredAt := none

/-- The invariant claimed by the spec: exactly one of targetPrice and
percentChange is set, matching the condition. -/
def exactlyOneTargetSet (a : AlertRow) : Bool :=
  match a.condition with
  | .percentChange => a.percentChange.isSome && a.targetPrice == none
  | _ => a.targetPrice.isSome && a.percentChange == none

/-- Request supplying both targetPrice and percentChange on an above
alert; the schema refinement only checks that targetPrice is present. -/
def c8request : CreateAlertRequest where
  symbol := "BTC"
  condition := AlertCondition.above
  targetPrice := some 100
  percentChange := some 5

/-- C8 counterexample: the creation interface accepts an above alert that
also carries a percent-change threshold, and the stored row has both
targetPrice and percentChange set — the claimed exactly-one invariant does
not hold for every stored record. -/
theorem C8_both_fields_stored :
    createAlertSchemaAccepts c8request = true ∧
      (createAlert 1 1 c8request (some 50)).condition = AlertCondition.above ∧
      (createAlert 1 1 c8request (some 50)).targetPrice = some 100 ∧
      (createAlert 1 1 c8request (some 50)).percentChange = some 5 ∧
      exactlyOneTargetSet (createAlert 1 1 c8request (some 50)) = false := by
  decide

/-- C8 amended: every accepted request has the field required by its
condition — percent_change alerts have a percent-change threshold,
above and below alerts have a positive target price — but the interface
does not reject a request that also supplies the other field, so a stored
row may carry both. -/
theorem C8_required_field_present (r : CreateAlertRequest)
    (h : createAlertSchemaAccepts r = true) (nextId userId : Nat) (currentPrice : Option ℚ) :
    ((createAlert nextId userId r currentPrice).condition = AlertCondition.percentChange →
      (createAlert nextId userId r currentPrice).percentChange.isSome = true) ∧
    ((createAlert nextId userId r currentPrice).condition ≠ AlertCondition.percentChange →
      (createAlert nextId userId r currentPrice).targetPrice.isSome = true ∧
        ∀ t, (createAlert nextId userId r currentPrice).targetPrice = some t → 0 < t) := by
  simp only [createAlertSchemaAccepts, Bool.and_eq_true] at h
  obtain ⟨⟨⟨-, -⟩, hpos⟩, hreq⟩ := h
  constructor
  · intro hc
    have hc2 : r.condition = AlertCondition.percentChange := hc
    rw [hc2] at hreq
    exact hreq
  · intro hc
    have hctr : r.condition ≠ AlertCondition.percentChange := hc
    have hsome : r.targetPrice.isSome = true := by
      cases hcond : r.condition with
      | above =>
          rw [hcond] at hreq
          exact hreq
      | below =>
          rw [hcond] at hreq
          exact hreq
      | percentChange => exact absurd hcond hctr
    refine ⟨hsome, fun t hteq => ?_⟩
    have ht2 : r.targetPrice = some t := hteq
    rw [ht2] at hpos
    exact of_decide_eq_true hpos

theorem C8_required_field_present_witness :
    createAlertSchemaAccepts
        { symbol := "ETH", condition := AlertCondition.percentChange,
          targetPrice := none, percentChange := some (-10) } = true ∧
      (((createAlert 2 7
          { symbol := "ETH", condition := AlertCondition.percentChange,
            targetPrice := none, percentChange := some (-10) } none).condition =
            AlertCondition.percentChange →
        (createAlert 2 7
          { symbol := "ETH", condition := AlertCondition.percentChange,
            targetPrice := none, percentChange := some (-10) } none).percentChange.isSome =
          true) ∧
      ((createAlert 2 7
          { symbol := "ETH", condition := AlertCondition.percentChange,
            targetPrice := none, percentChange := some (-10) } none).condition ≠
            AlertCondition.percentChange →
        (createAlert 2 7
          { symbol := "ETH", condition := AlertCondition.percentChange,
            targetPrice := none, percentChange := some (-10) } none).targetPrice.isSome = true ∧
          ∀ t, (createAlert 2 7
            { symbol := "ETH", condition := AlertCondition.percentChange,
              targetPrice := none, percentChange := some (-10) } none).targetPrice = some t →
            0 < t)) :=
  ⟨by decide, C8_required_field_present _ (by decide) 2 7 none⟩

/-- C2: for an active, non-triggered alert on the snapshot symbol, the
evaluation triggers it exactly as specified: above triggers iff price is at
least the target, below iff price is at most the target, percent_change
compares actual = (price - basePrice) / basePrice * 100 against the
threshold in the direction of its sign, and a zero threshold never
triggers. -/
theorem C2_trigger_conditions (dbase : List AlertRow) (snap : PriceSnapshot) (a : AlertRow)
    (ha : a ∈ dbase) (hsym : a.symbol = snap.symbol) (hact : a.isActive = true)
    (hntr : a.isTriggered = false) :
    (a ∈ triggeredOf dbase snap ↔ shouldTrigger a snap.price = true) ∧
    (∀ t, a.condition = AlertCondition.above → a.targetPrice = some t →
      (shouldTrigger a snap.price = true ↔ t ≤ snap.price)) ∧
    (∀ t, a.condition = AlertCondition.below → a.targetPrice = some t →
      (shouldTrigger a snap.price = true ↔ snap.price ≤ t)) ∧
    (∀ b th, a.condition = AlertCondition.percentChange → a.basePrice = some b →
      a.percentChange = some th →
      (shouldTrigger a snap.price = true ↔
        ((0 < th ∧ th ≤ (snap.price - b) / b * 100) ∨
          (th < 0 ∧ (snap.price - b) / b * 100 ≤ th)))) ∧
    (a.condition = AlertCondition.percentChange → a.percentChange = some 0 →
      shouldTrigger a snap.price = false) := by
  refine ⟨?_, ?_, ?_, ?_, ?_⟩
  · simp [triggeredOf, matchingAlerts, List.mem_filter, ha, hsym, hact, hntr]
  · intro t hc htp
    simp [shouldTrigger, hc, htp]
  · intro t hc htp
    simp [shouldTrigger, hc, htp]
  · intro b th hc hb hpc
    simp [shouldTrigger, hc, hb, hpc]
  · intro hc hpc
    cases hb : a.basePrice with
    | none => simp [shouldTrigger, hc, hb]
    | some b => simp [shouldTrigger, hc, hb, hpc, lt_irrefl]

/-- Concrete alert used to witness C2. -/
def c2alert : AlertRow where
  id := 3
  userId := 1
  symbol := "BTC"
  condition := AlertCondition.above
  targetPrice := some 100
  percentChange := none
  basePrice := some 80
  isTriggered := false
  isActive := true
  triggeredAt := none

theorem C2_trigger_conditions_witness :
    ((c2alert ∈ triggeredOf [c2alert] ⟨"BTC", 150⟩ ↔
        shouldTrigger c2alert (150 : ℚ) = true) ∧
      (∀ t, c2alert.condition = AlertCondition.above → c2alert.targetPrice = some t →
        (shouldTrigger c2alert (150 : ℚ) = true ↔ t ≤ (150 : ℚ))) ∧
      (∀ t, c2alert.condition = AlertCondition.below → c2alert.targetPrice = some t →
        (shouldTrigger c2alert (150 : ℚ) = true ↔ (150 : ℚ) ≤ t)) ∧
      (∀ b th, c2alert.condition = AlertCondition.percentChange → c2alert.basePrice = some b →
        c2alert.percentChange = some th →
        (shouldTrigger c2alert (150 : ℚ) = true ↔
          ((0 < th ∧ th ≤ ((150 : ℚ) - b) / b * 100) ∨
            (th < 0 ∧ ((150 : ℚ) - b) / b * 100 ≤ th)))) ∧
      (c2alert.condition = AlertCondition.percentChange → c2alert.percentChange = some 0 →
        shouldTrigger c2alert (150 : ℚ) = false)) :=
  C2_trigger_conditions [c2alert] ⟨"BTC", 150⟩ c2alert (by decide) rfl rfl rfl

/-- Rows that the evaluation pass does not select as triggers survive it
untouched: the exact row is still in the table and its id is never
announced.  Id uniqueness of the table keeps the batch update from hitting
it by id collision. -/
theorem untouched_when_not_selected (dbase : List AlertRow) (snap : PriceSnapshot)
    (persistOk : Bool) (now : Nat) (a : AlertRow) (ha : a ∈ dbase)
    (hnodup : (dbase.map AlertRow.id).Nodup)
    (hnt : a ∉ triggeredOf dbase snap) :
    a ∈ (checkAlertsForPrice dbase snap persistOk now).dbase ∧
      a.id ∉ (checkAlertsForPrice dbase snap persistOk now).announced.map AlertRow.id := by
  have hid : a.id ∉ (triggeredOf dbase snap).map AlertRow.id := by
    intro hmem
    obtain ⟨b, hb, hbid⟩ := List.mem_map.mp hmem
    have hbdb : b ∈ dbase :=
      (List.mem_filter.mp (List.mem_filter.mp hb).1).1
    have hba : b = a := List.inj_on_of_nodup_map hnodup hbdb ha hbid
    exact hnt (hba ▸ hb)
  simp only [checkAlertsForPrice]
  by_cases hemp : (triggeredOf dbase snap).isEmpty = true
  · rw [if_pos hemp]
    exact ⟨ha, by simp⟩
  · rw [if_neg hemp]
    by_cases hok : persistOk = true
    · rw [if_pos hok]
      refine ⟨?_, hid⟩
      have hmem := List.mem_map_of_mem
        (fun b => if b.id ∈ (triggeredOf dbase snap).map AlertRow.id then
          { b with isTriggered := true, triggeredAt := some now } else b) ha
      simp only [if_neg hid] at hmem
      have hgoal : a ∈ markTriggered dbase ((triggeredOf dbase snap).map AlertRow.id) now := by
        rw [markTriggered]
        exact hmem
      exact hgoal
    · rw [if_neg hok]
      exact ⟨ha, by simp⟩

/-- C4: an alert already marked triggered is never selected again — any
later evaluation pass leaves its row unchanged in the table and produces no
announcement for it. -/
theorem C4_triggered_alert_noop (dbase : List AlertRow) (snap : PriceSnapshot)
    (persistOk : Bool) (now : Nat) (a : AlertRow) (ha : a ∈ dbase)
    (htr : a.isTriggered = true) (hnodup : (dbase.map AlertRow.id).Nodup) :
    a ∈ (checkAlertsForPrice dbase snap persistOk now).dbase ∧
      a.id ∉ (checkAlertsForPrice dbase snap persistOk now).announced.map AlertRow.id := by
  refine untouched_when_not_selected dbase snap persistOk now a ha hnodup ?_
  intro habs
  have := (List.mem_filter.mp (List.mem_filter.mp habs).1).2
  simp [htr] at this

/-- Already-triggered concrete alert used to witness C4. -/
def c4alert : AlertRow where
  id := 9
  userId := 1
  symbol := "BTC"
  condition := AlertCondition.above
  targetPrice := some 100
  percentChange := none
  basePrice := none
  isTriggered := true
  isActive := true
  triggeredAt := some 3

theorem C4_triggered_alert_noop_witness :
    c4alert ∈ (checkAlertsForPrice [c4alert] ⟨"BTC", 150⟩ true 8).dbase ∧
      c4alert.id ∉ (checkAlertsForPrice [c4alert] ⟨"BTC", 150⟩ true 8).announced.map
        AlertRow.id :=
  C4_triggered_alert_noop [c4alert] ⟨"BTC", 150⟩ true 8 c4alert (by decide) rfl (by decide)

/-- C10: a percent_change alert created while the price source had no
price for its symbol is stored with basePrice null, active and
non-triggered; shouldTrigger is false on it for every snapshot price, so no
pass ever modifies or announces it — it stays active and non-triggered. -/
theorem C10_null_base_never_triggers (nextId userId : Nat) (r : CreateAlertRequest)
    (hc : r.condition = AlertCondition.percentChange) :
    (createAlert nextId userId r none).basePrice = none ∧
    (createAlert nextId userId r none).isActive = true ∧
    (createAlert nextId userId r none).isTriggered = false ∧
    (∀ price : ℚ, shouldTrigger (createAlert nextId userId r none) price = false) ∧
    (∀ dbase snap persistOk now, createAlert nextId userId r none ∈ dbase →
      (dbase.map AlertRow.id).Nodup →
      (createAlert nextId userId r none ∈ (checkAlertsForPrice dbase snap persistOk now).dbase ∧
        (createAlert nextId userId r none).id ∉
          (checkAlertsForPrice dbase snap persistOk now).announced.map AlertRow.id)) := by
  have htf : ∀ price : ℚ, shouldTrigger (createAlert nextId userId r none) price = false := by
    intro price
    simp [shouldTrigger, createAlert, hc]
  refine ⟨rfl, rfl, rfl, htf, ?_⟩
  intro dbase snap persistOk now hmem hnodup
  refine untouched_when_not_selected dbase snap persistOk now _ hmem hnodup ?_
  intro habs
  have := (List.mem_filter.mp habs).2
  rw [htf snap.price] at this
  exact Bool.false_ne_true this

theorem C10_null_base_never_triggers_witness :
    ((createAlert 4 2
        { symbol := "SOL", condition := AlertCondition.percentChange,
          targetPrice := none, percentChange := some 10 } none).basePrice = none ∧
      (createAlert 4 2
        { symbol := "SOL", condition := AlertCondition.percentChange,
          targetPrice := none, percentChange := some 10 } none).isActive = true ∧
      (createAlert 4 2
        { symbol := "SOL", condition := AlertCondition.percentChange,
          targetPrice := none, percentChange := some 10 } none).isTriggered = false ∧
      (∀ price : ℚ, shouldTrigger (createAlert 4 2
        { symbol := "SOL", condition := AlertCondition.percentChange,
          targetPrice := none, percentChange := some 10 } none) price = false) ∧
      (∀ dbase snap persistOk now, createAlert 4 2
          { symbol := "SOL", condition := AlertCondition.percentChange,
            targetPrice := none, percentChange := some 10 } none ∈ dbase →
        (dbase.map AlertRow.id).Nodup →
        (createAlert 4 2
            { symbol := "SOL", condition := AlertCondition.percentChange,
              targetPrice := none, percentChange := some 10 } none ∈
            (checkAlertsForPrice dbase snap persistOk now).dbase ∧
          (createAlert 4 2
            { symbol := "SOL", condition := AlertCondition.percentChange,
              targetPrice := none, percentChange := some 10 } none).id ∉
            (checkAlertsForPrice dbase snap persistOk now).announced.map AlertRow.id))) :=
  C10_null_base_never_triggers 4 2
    { symbol := "SOL", condition := AlertCondition.percentChange,
      targetPrice := none, percentChange := some 10 } rfl

/-- Alert on BTC used in the C3 counterexample. -/
def c3alertBTC : AlertRow where
  id := 1
  userId := 1
  symbol := "BTC"
  condition := AlertCondition.above
  targetPrice := some 100
  percentChange := none
  basePrice := none
  isTriggered := false
  isActive := true
  triggeredAt := none

/-- Alert on ETH used in the C3 counterexample. -/
def c3alertETH : AlertRow where
  id := 2
  userId := 1
  symbol := "ETH"
  condition := AlertCondition.above
  targetPrice := some 100
  percentChange := none
  basePrice := none
  isTriggered := false
  isActive := true
  triggeredAt := none

/-- A two-snapshot run of checkAllAlerts in which both alerts trigger. -/
def c3run : EvalResult :=
  checkAllAlerts [c3alertBTC, c3alertETH]
    [{ symbol := "BTC", price := 150 }, { symbol := "ETH", price := 150 }] true 7

/-- C3 counterexample: over a batch of two snapshots, the pass triggers
alerts 1 and 2, but its event trace persists and announces alert 1 before
alert 2 is persisted — the triggers of the pass are not persisted in one
single batch update before any announcement, as the claim states. -/
theorem C3_pass_wide_batch_counterexample :
    c3run.announced.map AlertRow.id = [1, 2] ∧
      c3run.trace = [EvalEvent.persist [1], EvalEvent.announce 1,
        EvalEvent.persist [2], EvalEvent.announce 2] ∧
      ¬(c3run.trace.head? = some (EvalEvent.persist (c3run.announced.map AlertRow.id)) ∧
          ∀ e ∈ c3run.trace.tail, e.isAnnounce = true) := by
  refine ⟨by decide, by decide, ?_⟩
  intro hcl
  have h1 : c3run.trace.head? = some (EvalEvent.persist [1, 2]) := by
    rw [hcl.1]
    decide
  exact absurd h1 (by decide)

/-- C3 amended: the batch guarantee holds per snapshot.  Within the
evaluation of one snapshot, every alert found to trigger is persisted
(isTriggered set, triggeredAt set) by the one batch update, and that
persist event precedes every announcement of the batch; when the update
fails, nothing from the batch is announced and the table is unchanged, so
the alerts remain active and non-triggered and a later pass retries them.
Across the snapshots of one checkAllAlerts pass, each snapshot gets its own
persist-then-announce batch. -/
theorem C3_batch_persist_per_snapshot (dbase : List AlertRow) (snap : PriceSnapshot)
    (now : Nat) :
    ((checkAlertsForPrice dbase snap false now).announced = [] ∧
      (checkAlertsForPrice dbase snap false now).dbase = dbase) ∧
    (∀ a ∈ (checkAlertsForPrice dbase snap true now).announced,
      ∃ a2 ∈ (checkAlertsForPrice dbase snap true now).dbase,
        a2.id = a.id ∧ a2.isTriggered = true ∧ a2.triggeredAt = some now) ∧
    (∀ e ∈ (checkAlertsForPrice dbase snap true now).trace, e.isAnnounce = true →
      (checkAlertsForPrice dbase snap true now).trace.head? =
        some (EvalEvent.persist
          ((checkAlertsForPrice dbase snap true now).announced.map AlertRow.id))) := by
  refine ⟨?_, ?_, ?_⟩
  · simp only [checkAlertsForPrice]
    by_cases hemp : (triggeredOf dbase snap).isEmpty = true
    · rw [if_pos hemp]
      exact ⟨rfl, rfl⟩
    · rw [if_neg hemp]
      exact ⟨rfl, rfl⟩
  · intro a ha
    simp only [checkAlertsForPrice] at ha ⊢
    by_cases hemp : (triggeredOf dbase snap).isEmpty = true
    · rw [if_pos hemp] at ha
      exact absurd ha (by simp)
    · rw [if_neg hemp] at ha ⊢
      simp only [if_true] at ha ⊢
      have hadb : a ∈ dbase :=
        (List.mem_filter.mp (List.mem_filter.mp ha).1).1
      have hid : a.id ∈ (triggeredOf dbase snap).map AlertRow.id :=
        List.mem_map_of_mem AlertRow.id ha
      refine ⟨{ a with isTriggered := true, triggeredAt := some now }, ?_, rfl, rfl, rfl⟩
      have hmem := List.mem_map_of_mem
        (fun b => if b.id ∈ (triggeredOf dbase snap).map AlertRow.id then
          { b with isTriggered := true, triggeredAt := some now } else b) hadb
      simp only [if_pos hid] at hmem
      have hgoal : { a with isTriggered := true, triggeredAt := some now } ∈
          markTriggered dbase ((triggeredOf dbase snap).map AlertRow.id) now := by
        rw [markTriggered]
        exact hmem
      exact hgoal
  · intro e he hann
    simp only [checkAlertsForPrice] at he ⊢
    by_cases hemp : (triggeredOf dbase snap).isEmpty = true
    · rw [if_pos hemp] at he
      exact absurd he (by simp)
    · rw [if_neg hemp] at he ⊢
      simp only [if_true] at he ⊢
      rfl

theorem C3_batch_persist_per_snapshot_witness :
    (((checkAlertsForPrice [c3alertBTC] { symbol := "BTC", price := 150 } false 7).announced =
        [] ∧
      (checkAlertsForPrice [c3alertBTC] { symbol := "BTC", price := 150 } false 7).dbase =
        [c3alertBTC]) ∧
    (∀ a ∈ (checkAlertsForPrice [c3alertBTC] { symbol := "BTC", price := 150 } true 7).announced,
      ∃ a2 ∈ (checkAlertsForPrice [c3alertBTC] { symbol := "BTC", price := 150 } true 7).dbase,
        a2.id = a.id ∧ a2.isTriggered = true ∧ a2.triggeredAt = some 7) ∧
    (∀ e ∈ (checkAlertsForPrice [c3alertBTC] { symbol := "BTC", price := 150 } true 7).trace,
      e.isAnnounce = true →
      (checkAlertsForPrice [c3alertBTC] { symbol := "BTC", price := 150 } true 7).trace.head? =
        some (EvalEvent.persist
          ((checkAlertsForPrice [c3alertBTC] { symbol := "BTC", price := 150 }
            true 7).announced.map AlertRow.id)))) :=
  C3_batch_persist_per_snapshot [c3alertBTC] { symbol := "BTC", price := 150 } 7

/-! ## Rate limiter (rateLimit.ts checkRateLimit)

The Redis sorted set behind one identifier key is modelled as the list of
scores of its members; members are unique (timestamp plus a random
suffix), so only scores matter.  Timestamps and limits are integers. -/

/-- Result record of checkRateLimit. -/
structure RateLimitResult where
  allowed : Bool
  remaining : Int
  reset : Int
deriving DecidableEq, Repr

/-- checkRateLimit on a reachable store, acting on the entries of one
identifier key.  Pipeline in order: zremrangebyscore key 0 windowStart
(drops scores in [0, now - windowMs]), zcard (the count used for the
decision), zadd of the current attempt at score now, pexpire.  When the
count is at or over the limit the request is rejected and
zremrangebyscore key now now runs, dropping every member whose score
equals now. -/
def checkRateLimit (entries : List Int) (limit windowMs now : Int) :
    RateLimitResult × List Int :=
  let windowStart := now - windowMs
  let afterExpire := entries.filter (fun s => !(decide (0 ≤ s) && decide (s ≤ windowStart)))
  let currentCount : Int := afterExpire.length
  let afterAdd := afterExpire ++ [now]
  let allowed := decide (currentCount < limit)
  let remaining := max 0 (limit - currentCount - 1)
  let reset := now + windowMs
  let final :=
    if allowed then afterAdd
    else afterAdd.filter (fun s => !(decide (now ≤ s) && decide (s ≤ now)))
  ({ allowed := allowed, remaining := remaining, reset := reset }, final)

/-- First call of the C5 scenario: empty window, limit 1, window 60000 ms,
now 1000. -/
def c5call1 : RateLimitResult × List Int := checkRateLimit [] 1 60000 1000

/-- Second call of the C5 scenario, same millisecond, on the state the
first call left. -/
def c5call2 : RateLimitResult × List Int := checkRateLimit c5call1.2 1 60000 1000

/-- Third call of the C5 scenario, same millisecond, on the state the
second call left. -/
def c5call3 : RateLimitResult × List Int := checkRateLimit c5call2.2 1 60000 1000

/-- C5: the rejection path does not leave the recorded window unchanged.
With limit 1 and a 60000 ms window, three calls at the same millisecond
1000: the first is allowed and recorded; the second is rejected, but its
cleanup zremrangebyscore(key, now, now) erases the entry recorded by the
first call together with its own, leaving the window empty instead of
holding the one allowed attempt; the third call is then allowed, even
though the claim requires it to be rejected (one recorded attempt — not
fewer than the limit — remains in the window under the claimed
behaviour). -/
theorem C5_rejected_call_erases_window :
    c5call1.1.allowed = true ∧ c5call1.2 = [1000] ∧
      c5call2.1.allowed = false ∧ c5call2.2 = [] ∧
      c5call3.1.allowed = true := by
  decide

/-- Failure modes of the shared counter store in checkRateLimit. -/
inductive StoreStatus where
  | noStore
  | execNull
  | execError
  | ok
deriving DecidableEq, Repr

/-- checkRateLimit including the store failure paths: no Redis instance
configured (early return), pipeline.exec returning null, or a store
operation throwing (catch block).  Every failure path returns allowed with
remaining = limit and reset = now + windowMs. -/
def checkRateLimitWith (status : StoreStatus) (entries : List Int) (limit windowMs now : Int) :
    RateLimitResult × List Int :=
  match status with
  | .noStore => ({ allowed := true, remaining := limit, reset := now + windowMs }, entries)
  | .execNull =>
      ({ allowed := true, remaining := limit, reset := now + windowMs },
        (entries.filter (fun s => !(decide (0 ≤ s) && decide (s ≤ now - windowMs)))) ++ [now])
  | .execError =>
      ({ allowed := true, remaining := limit, reset := now + windowMs }, entries)
  | .ok => checkRateLimit entries limit windowMs now

/-- C9: whenever the shared counter store is unreachable — not configured,
exec reporting no results, or an operation raising — the check returns
allowed for every identifier state, limit and window: store
unreachability never rejects a request (fail open). -/
theorem C9_fail_open (entries : List Int) (limit windowMs now : Int) :
    (checkRateLimitWith StoreStatus.noStore entries limit windowMs now).1.allowed = true ∧
      (checkRateLimitWith StoreStatus.execNull entries limit windowMs now).1.allowed = true ∧
      (checkRateLimitWith StoreStatus.execError entries limit windowMs now).1.allowed = true :=
  ⟨rfl, rfl, rfl⟩

end CryptoTracker
